import Mathlib

/-!
A shallow embedding of `process_files_with_adjusted_filtering` (src/app.py).

The engine receives three pandas dataframes.  A dataframe is modelled as a
record of column-presence flags (a pandas column is present or absent for the
whole table, never per row) together with a list of rows; a cell that pandas
would hold as NaN is modelled as `none`.  Numeric cells are modelled as `ℚ`:
the code performs no arithmetic on them, only order comparisons, for which
the rational model is faithful.  Identifier cells are modelled as the strings
produced by `astype(str)`.
-/

/-- A cell value as it can appear in an output field: a string, a number, or
null (pandas NaN / Python None). -/
inductive Value where
  | str (s : String)
  | num (q : ℚ)
  | null
deriving DecidableEq

/-- pandas `Series.str.zfill`: prepend `'0'` characters up to the given
width.  Unlike Python's `str.zfill` there is no special handling of a
leading sign (`"-1"` becomes `"0-1"`); a string already at least `width`
long is returned unchanged. -/
def pyZfill (s : String) (width : Nat) : String :=
  if width ≤ s.length then s
  else ⟨List.replicate (width - s.length) '0' ++ s.data⟩

/-- Models `.str.split('.').str[0]`: everything before the first dot
(`"123.0".split('.')[0] == "123"`; a dotless string is returned whole). -/
def stripFrac (s : String) : String :=
  ⟨s.data.takeWhile (fun c => c != '.')⟩

/-- Normalizer for `Top 100` and `NADAC` identifiers (app.py lines 23-24):
`astype(str).str.zfill(11)`. -/
def normNDC (s : String) : String := pyZfill s 11

/-- Normalizer for `Reimbursement` identifiers (app.py lines 25-31):
`astype(str).str.split('.').str[0].str.zfill(11)`. -/
def normReimbNDC (s : String) : String := pyZfill (stripFrac s) 11

/-- One row of the Top 100 dataframe: the `NDC` cell (as the string
`astype(str)` yields) and the `Drug` cell (`none` models NaN). -/
structure ProdRow where
  ndc : String
  drug : Option String
deriving DecidableEq

/-- One row of the NADAC dataframe: `NDC` and `NADAC Per Unit`. -/
structure PriceRow where
  ndc : String
  nadacPerUnit : Option ℚ
deriving DecidableEq

/-- One row of the Reimbursement dataframe: `Dispensed Item NDC`,
`Primary Remit Amount`, `Primary Third Party Bin`, `Primary Third Party PCN`,
`Primary Network Reimbursement`.  The last four are nullable; the cell fields
for the optional columns are meaningful only when the table carries that
column. -/
structure ReimbRow where
  ndc : String
  amount : Option ℚ
  bin : Option String
  pcn : Option String
  network : Option String
deriving DecidableEq

/-- The Top 100 dataframe: presence flags for the required columns, plus
rows. -/
structure Top100Table where
  hasNDC : Bool
  hasDrug : Bool
  rows : List ProdRow
deriving DecidableEq

/-- The NADAC dataframe. -/
structure NadacTable where
  hasNDC : Bool
  hasUnit : Bool
  rows : List PriceRow
deriving DecidableEq

/-- The Reimbursement dataframe: the two required columns and the three
optional ones each have a presence flag. -/
structure ReimbTable where
  hasNDC : Bool
  hasAmount : Bool
  hasBin : Bool
  hasPcn : Bool
  hasNetwork : Bool
  rows : List ReimbRow
deriving DecidableEq

/-- Schema validation (app.py lines 10-20): required columns are checked in
the dictionary / list order of the source; the first missing one is reported
as `(file name, column name)` and `st.stop()` halts the script. -/
def validate (t : Top100Table) (n : NadacTable) (r : ReimbTable) :
    Option (String × String) :=
  if t.hasNDC = false then some ("Top 100", "NDC")
  else if t.hasDrug = false then some ("Top 100", "Drug")
  else if n.hasNDC = false then some ("NADAC", "NDC")
  else if n.hasUnit = false then some ("NADAC", "NADAC Per Unit")
  else if r.hasNDC = false then some ("Reimbursement", "Dispensed Item NDC")
  else if r.hasAmount = false then some ("Reimbursement", "Primary Remit Amount")
  else none

/-- Line 23: `top_100_data["NDC"] = top_100_data["NDC"].astype(str).str.zfill(11)`.
This is an in-place column assignment on the caller's dataframe; it is
modelled by returning the updated table. -/
def normalizeTop100 (t : Top100Table) : Top100Table :=
  { t with rows := t.rows.map (fun p => { p with ndc := normNDC p.ndc }) }

/-- Line 24: the same column assignment on the NADAC dataframe. -/
def normalizeNadac (n : NadacTable) : NadacTable :=
  { n with rows := n.rows.map (fun p => { p with ndc := normNDC p.ndc }) }

/-- Lines 25-31: the column assignment on the Reimbursement dataframe, with
the fractional-suffix strip before padding. -/
def normalizeReimb (r : ReimbTable) : ReimbTable :=
  { r with rows := r.rows.map (fun x => { x with ndc := normReimbNDC x.ndc }) }

/-- Line 35: `reimbursement_data["Primary Remit Amount"].fillna(0) > 0`. -/
def validAmount (x : ReimbRow) : Bool :=
  decide (0 < x.amount.getD 0)

/-- Lines 34-36: the filtered dataframe `valid_reimbursement_data`. -/
def filterValid (rows : List ReimbRow) : List ReimbRow :=
  rows.filter validAmount

/-- Line 39 and line 50: `nadac_data.set_index("NDC")["NADAC Per Unit"].to_dict()`
followed by `.get(ndc, None)`.  Building the dict leaves the last-seen value
for a duplicated identifier; a miss gives None and a NaN cell also surfaces
as null, so both collapse to `none`. -/
def nadacLookup (rows : List PriceRow) (ndc : String) : Option ℚ :=
  match rows.reverse.find? (fun p => p.ndc == ndc) with
  | some p => p.nadacPerUnit
  | none => none

/-- Line 53: the rows of `valid_reimbursement_data` whose
`Dispensed Item NDC` equals the product's normalized identifier. -/
def matchesFor (valid : List ReimbRow) (ndc : String) : List ReimbRow :=
  valid.filter (fun x => x.ndc == ndc)

/-- The strict descending comparison `sort_values` uses on the
`Primary Remit Amount` key: a NaN amount sorts after every number
(`na_position` defaults to last). -/
def amtGt (a b : Option ℚ) : Bool :=
  match a, b with
  | some x, some y => decide (y < x)
  | some _, none => true
  | none, _ => false

/-- Line 56: `.sort_values(by="Primary Remit Amount", ascending=False).iloc[0]`,
on a possibly empty match set.  The head of the descending sort is a row
attaining the maximum amount.  Which row of an equal-amount tie group ends
up first depends on numpy's default `quicksort` (introsort), which is not
stable in general; this definition fixes the earliest row attaining the
maximum, which is exact whenever the underlying sort behaves stably (as in
numpy's small-array insertion-sort regime, via `nargsort`'s double reversal)
and always agrees with the program when the maximum is unique. -/
def selectBest : List ReimbRow → Option ReimbRow
  | [] => none
  | x :: xs =>
    match selectBest xs with
    | none => some x
    | some b => if amtGt b.amount x.amount then some b else some x

/-- Lines 57-59: `best_match.get(col, "Not Available")` on the selected row
(a pandas Series indexed by the column names).  The default applies only
when the column is absent from the dataframe; a present column returns its
cell value, NaN included. -/
def getOptField (present : Bool) (cell : Option String) : Value :=
  if present then
    match cell with
    | some s => Value.str s
    | none => Value.null
  else Value.str "Not Available"

/-- Line 60: `best_match.get("Primary Remit Amount", 0.0)`, with the same
Series.get semantics. -/
def getAmountField (present : Bool) (cell : Option ℚ) : Value :=
  if present then
    match cell with
    | some q => Value.num q
    | none => Value.null
  else Value.num 0

/-- One record of the output dataframe (lines 68-77). -/
structure OutputRow where
  drugName : Option String
  ndc : String
  nadac : Option ℚ
  bin : Value
  pcn : Value
  network : Value
  reimbursement : Value
  price : Option ℚ
deriving DecidableEq

/-- Lines 45-77: the body of the per-product loop, producing one output row
from one (already normalized) Top 100 row. -/
def processRow (n : NadacTable) (r : ReimbTable) (valid : List ReimbRow)
    (p : ProdRow) : OutputRow :=
  match selectBest (matchesFor valid p.ndc) with
  | some b =>
    { drugName := p.drug
      ndc := p.ndc
      nadac := nadacLookup n.rows p.ndc
      bin := getOptField r.hasBin b.bin
      pcn := getOptField r.hasPcn b.pcn
      network := getOptField r.hasNetwork b.network
      reimbursement := getAmountField r.hasAmount b.amount
      price := none }
  | none =>
    { drugName := p.drug
      ndc := p.ndc
      nadac := nadacLookup n.rows p.ndc
      bin := Value.str "Not Available"
      pcn := Value.str "Not Available"
      network := Value.str "Not Available"
      reimbursement := Value.num 0
      price := none }

/-- The whole engine (lines 4-82).  On a schema error it stops with the
`(file, column)` pair and no output.  On success it returns the output rows
together with the final states of the three input dataframes: the
normalization step has written the normalized identifier column back into
each of them. -/
def runEngine (t : Top100Table) (n : NadacTable) (r : ReimbTable) :
    Except (String × String)
      (List OutputRow × Top100Table × NadacTable × ReimbTable) :=
  match validate t n r with
  | some e => Except.error e
  | none =>
    let t1 := normalizeTop100 t
    let n1 := normalizeNadac n
    let r1 := normalizeReimb r
    let valid := filterValid r1.rows
    Except.ok (t1.rows.map (processRow n1 r1 valid), t1, n1, r1)

/-! ### Example datasets

`exTop`, `exNadac`, `exReimb` are the spec's §8 example scenario.  Building
the reimbursement dataframe from the two given records yields the union of
their keys as columns: `Primary Third Party Bin` and
`Primary Network Reimbursement` are present columns (with NaN where a record
lacks a value) while `Primary Third Party PCN` is absent. -/

def exTop : Top100Table := ⟨true, true, [⟨"123", some "Aspirin"⟩]⟩

def exNadac : NadacTable := ⟨true, true, [⟨"00000000123", some (mkRat 9 20)⟩]⟩

def exReimb : ReimbTable :=
  ⟨true, true, true, false, true,
   [⟨"123.0", some (mkRat 25 2), none, none, some "NET1"⟩,
    ⟨"00000000123", some 8, some "610014", none, none⟩]⟩

/-- Whether the `(file, column)` pair names a required column that is indeed
absent from its dataset, following the `required_columns` map of lines
10-14. -/
def requiredColumnMissing (t : Top100Table) (n : NadacTable) (r : ReimbTable)
    (d c : String) : Bool :=
  if d == "Top 100" && c == "NDC" then !t.hasNDC
  else if d == "Top 100" && c == "Drug" then !t.hasDrug
  else if d == "NADAC" && c == "NDC" then !n.hasNDC
  else if d == "NADAC" && c == "NADAC Per Unit" then !n.hasUnit
  else if d == "Reimbursement" && c == "Dispensed Item NDC" then !r.hasNDC
  else if d == "Reimbursement" && c == "Primary Remit Amount" then !r.hasAmount
  else false

/-- The actual output row the engine produces on the example datasets.  The
winning reimbursement record (amount 12.50) has a NaN `Primary Third Party
Bin` cell in a present column, so `Series.get` surfaces the NaN itself and
`Bin` comes out null rather than defaulted. -/
def exOutRow : OutputRow :=
  { drugName := some "Aspirin"
    ndc := "00000000123"
    nadac := some (mkRat 9 20)
    bin := Value.null
    pcn := Value.str "Not Available"
    network := Value.str "NET1"
    reimbursement := Value.num (mkRat 25 2)
    price := none }

/-- A Top 100 dataframe whose `Drug` column is missing. -/
def c6Top : Top100Table := ⟨true, false, []⟩

/-- A reimbursement row with a valid amount whose `Primary Third Party Bin`
cell is NaN while `PCN` and `Network` carry real values. -/
def c1Row : ReimbRow := ⟨"00000000001", some 5, none, some "PCN1", some "NETA"⟩

def c1Top : Top100Table := ⟨true, true, [⟨"00000000001", some "DrugA"⟩]⟩

def c1Nadac : NadacTable := ⟨true, true, []⟩

/-- A reimbursement dataframe carrying all five columns, whose single row is
`c1Row`. -/
def c1Reimb : ReimbTable := ⟨true, true, true, true, true, [c1Row]⟩

/-- A reimbursement row with a null amount but real optional fields: the
filter must drop it. -/
def c5bad : ReimbRow := ⟨"00000000001", none, some "B", some "P", some "N"⟩

/-- A reimbursement row with a positive amount and no optional fields: the
filter must keep it. -/
def c5good : ReimbRow := ⟨"00000000001", some 5, none, none, none⟩

def tieTop : Top100Table := ⟨true, true, [⟨"7", some "DrugT"⟩]⟩

def tieNadac : NadacTable := ⟨true, true, []⟩

/-- Two reimbursement rows for the same identifier with equal positive
amounts: a tie on the ranking key. -/
def tieReimb : ReimbTable :=
  ⟨true, true, true, true, true,
   [⟨"00000000007", some 5, some "B1", none, none⟩,
    ⟨"00000000007", some 5, some "B2", none, none⟩]⟩

/-! ### Helper lemmas -/

theorem selectBest_mem {l : List ReimbRow} {b : ReimbRow}
    (h : selectBest l = some b) : b ∈ l := by
  induction l with
  | nil => simp [selectBest] at h
  | cons x xs ih =>
    rw [selectBest] at h
    split at h
    next hx =>
      injection h with h
      subst h
      exact List.mem_cons_self x xs
    next c hx =>
      by_cases hc : amtGt c.amount x.amount = true
      · rw [if_pos hc] at h
        injection h with h
        subst h
        exact List.mem_cons_of_mem x (ih hx)
      · rw [if_neg hc] at h
        injection h with h
        subst h
        exact List.mem_cons_self x xs

theorem selectBest_cons_isSome (x : ReimbRow) (xs : List ReimbRow) :
    ∃ b, selectBest (x :: xs) = some b := by
  rw [selectBest]
  split
  · exact ⟨x, rfl⟩
  next c hx =>
    by_cases hc : amtGt c.amount x.amount = true
    · exact ⟨c, by rw [if_pos hc]⟩
    · exact ⟨x, by rw [if_neg hc]⟩

theorem selectBest_eq_none {l : List ReimbRow} : selectBest l = none ↔ l = [] := by
  cases l with
  | nil => simp [selectBest]
  | cons x xs =>
    obtain ⟨b, hb⟩ := selectBest_cons_isSome x xs
    simp [hb]

theorem takeWhile_of_all {p : Char → Bool} {l : List Char}
    (h : ∀ c ∈ l, p c = true) : l.takeWhile p = l := by
  induction l with
  | nil => rfl
  | cons c cs ih =>
    rw [List.takeWhile_cons, h c (List.mem_cons_self c cs)]
    simp [ih (fun d hd => h d (List.mem_cons_of_mem c hd))]

theorem processRow_drugName (n : NadacTable) (r : ReimbTable)
    (valid : List ReimbRow) (p : ProdRow) :
    (processRow n r valid p).drugName = p.drug := by
  cases h : selectBest (matchesFor valid p.ndc) <;> simp [processRow, h]

theorem processRow_ndc (n : NadacTable) (r : ReimbTable)
    (valid : List ReimbRow) (p : ProdRow) :
    (processRow n r valid p).ndc = p.ndc := by
  cases h : selectBest (matchesFor valid p.ndc) <;> simp [processRow, h]

theorem validate_none_flags {t : Top100Table} {n : NadacTable} {r : ReimbTable}
    (h : validate t n r = none) :
    t.hasNDC = true ∧ t.hasDrug = true ∧ n.hasNDC = true ∧ n.hasUnit = true ∧
      r.hasNDC = true ∧ r.hasAmount = true := by
  unfold validate at h
  split_ifs at h with h1 h2 h3 h4 h5 h6
  simp_all

theorem runEngine_of_validate_none {t : Top100Table} {n : NadacTable}
    {r : ReimbTable} (h : validate t n r = none) :
    runEngine t n r =
      Except.ok
        ((normalizeTop100 t).rows.map
            (processRow (normalizeNadac n) (normalizeReimb r)
              (filterValid (normalizeReimb r).rows)),
          normalizeTop100 t, normalizeNadac n, normalizeReimb r) := by
  simp [runEngine, h]

/-! ### Claims -/

/-- Claim C7: identifier normalization is idempotent — on an
already-11-character zero-padded (all-digit) identifier string, each of the
three datasets' normalizers (the `Top 100` / `NADAC` one, and the
reimbursement one that first strips a dot-delimited fractional suffix)
returns the string unchanged; and a value longer than 11 characters is not
truncated by the `Top 100` / `NADAC` normalizer. -/
theorem C7_normalization_idempotent :
    (∀ s : String, s.length = 11 → s.data.all Char.isDigit = true →
      normNDC s = s ∧ normReimbNDC s = s) ∧
    (∀ s : String, 11 < s.length → normNDC s = s) := by
  constructor
  · intro s hlen hdig
    have hz : pyZfill s 11 = s := by
      unfold pyZfill
      rw [if_pos (le_of_eq hlen.symm)]
    refine ⟨hz, ?_⟩
    have hsf : stripFrac s = s := by
      unfold stripFrac
      have ht : s.data.takeWhile (fun c => c != '.') = s.data := by
        apply takeWhile_of_all
        intro c hc
        have hd : c.isDigit = true := List.all_eq_true.mp hdig c hc
        simp only [bne_iff_ne, ne_eq]
        intro hEq
        subst hEq
        exact absurd hd (by decide)
      rw [ht]
    unfold normReimbNDC
    rw [hsf]
    exact hz
  · intro s h
    unfold normNDC pyZfill
    rw [if_pos (le_of_lt h)]

/-- Witness for C7 at the concrete strings `"00000000123"` (an 11-character
zero-padded identifier) and `"123456789012"` (12 characters). -/
theorem C7_normalization_idempotent_witness :
    ("00000000123".length = 11 ∧ "00000000123".data.all Char.isDigit = true ∧
      11 < "123456789012".length) ∧
    normNDC "00000000123" = "00000000123" ∧
    normReimbNDC "00000000123" = "00000000123" ∧
    normNDC "123456789012" = "123456789012" := by
  refine ⟨⟨by decide, by decide, by decide⟩, ?_, ?_, ?_⟩
  · exact (C7_normalization_idempotent.1 "00000000123" (by decide) (by decide)).1
  · exact (C7_normalization_idempotent.1 "00000000123" (by decide) (by decide)).2
  · exact C7_normalization_idempotent.2 "123456789012" (by decide)

/-- Claim C6: when any fixed required column is missing, the engine signals
an error naming the dataset and the column, and returns no output at all
(the result is `Except.error`, which carries no rows). -/
theorem C6_schema_error (t : Top100Table) (n : NadacTable) (r : ReimbTable)
    (h : (t.hasNDC && t.hasDrug && n.hasNDC && n.hasUnit &&
      r.hasNDC && r.hasAmount) = false) :
    ∃ d c, runEngine t n r = Except.error (d, c) ∧
      requiredColumnMissing t n r d c = true := by
  obtain ⟨ht1, ht2, trows⟩ := t
  obtain ⟨hn1, hn2, nrows⟩ := n
  obtain ⟨hr1, hr2, hb, hp, hw, rrows⟩ := r
  cases ht1 <;> cases ht2 <;> cases hn1 <;> cases hn2 <;> cases hr1 <;> cases hr2 <;>
    first
      | exact ⟨"Top 100", "NDC", rfl, rfl⟩
      | exact ⟨"Top 100", "Drug", rfl, rfl⟩
      | exact ⟨"NADAC", "NDC", rfl, rfl⟩
      | exact ⟨"NADAC", "NADAC Per Unit", rfl, rfl⟩
      | exact ⟨"Reimbursement", "Dispensed Item NDC", rfl, rfl⟩
      | exact ⟨"Reimbursement", "Primary Remit Amount", rfl, rfl⟩
      | simp at h

/-- Witness for C6: a Top 100 dataframe missing its `Drug` column makes the
engine halt with a schema error naming that dataset and column. -/
theorem C6_schema_error_witness :
    ((c6Top.hasNDC && c6Top.hasDrug && exNadac.hasNDC && exNadac.hasUnit &&
      exReimb.hasNDC && exReimb.hasAmount) = false) ∧
    ∃ d c, runEngine c6Top exNadac exReimb = Except.error (d, c) ∧
      requiredColumnMissing c6Top exNadac exReimb d c = true :=
  ⟨by decide, C6_schema_error c6Top exNadac exReimb (by decide)⟩

/-- Claim C5: a reimbursement record whose amount is null-or-nonpositive is
excluded by the filter (so it can never be a selected match, which is always
drawn from the filtered list), a record with a strictly positive amount is
retained no matter what its bin/PCN/network cells hold, and any record
`selectBest` returns out of the engine's match set has a strictly positive
amount. -/
theorem C5_invalid_never_selected (rows : List ReimbRow) (ndc : String) :
    (∀ x ∈ rows, x.amount.getD 0 ≤ 0 → x ∉ filterValid rows) ∧
    (∀ x ∈ rows, 0 < x.amount.getD 0 → x ∈ filterValid rows) ∧
    (∀ b, selectBest (matchesFor (filterValid rows) ndc) = some b →
      0 < b.amount.getD 0) := by
  refine ⟨?_, ?_, ?_⟩
  · intro x _ hle hmem
    have hva := (List.mem_filter.mp (show x ∈ rows.filter validAmount from hmem)).2
    simp only [validAmount, decide_eq_true_eq] at hva
    exact absurd hva (not_lt.mpr hle)
  · intro x hx hpos
    exact List.mem_filter.mpr ⟨hx, by simp [validAmount, hpos]⟩
  · intro b hb
    have h1 := selectBest_mem hb
    have h2 : b ∈ filterValid rows :=
      (List.mem_filter.mp
        (show b ∈ (filterValid rows).filter (fun x => x.ndc == ndc) from h1)).1
    have hva := (List.mem_filter.mp (show b ∈ rows.filter validAmount from h2)).2
    simp only [validAmount, decide_eq_true_eq] at hva
    exact hva

/-- Witness for C5 on concrete rows: the null-amount row `c5bad` is dropped,
the positive-amount row `c5good` (with no optional fields) is kept, and the
selected match over that list has positive amount. -/
theorem C5_invalid_never_selected_witness :
    (c5bad ∈ [c5bad, c5good] ∧ c5bad.amount.getD 0 ≤ 0 ∧
      c5bad ∉ filterValid [c5bad, c5good]) ∧
    (c5good ∈ [c5bad, c5good] ∧ 0 < c5good.amount.getD 0 ∧
      c5good ∈ filterValid [c5bad, c5good]) ∧
    (selectBest (matchesFor (filterValid [c5bad, c5good]) "00000000001") =
      some c5good ∧ 0 < c5good.amount.getD 0) := by
  refine ⟨⟨by decide, by decide, ?_⟩, ⟨by decide, by decide, ?_⟩, by decide, ?_⟩
  · exact (C5_invalid_never_selected [c5bad, c5good] "00000000001").1 c5bad
      (by decide) (by decide)
  · exact (C5_invalid_never_selected [c5bad, c5good] "00000000001").2.1 c5good
      (by decide) (by decide)
  · exact (C5_invalid_never_selected [c5bad, c5good] "00000000001").2.2 c5good
      (by decide)

/-- Claim C4: on any schema-valid inputs the engine succeeds and its output
has exactly one row per input ProductRecord, in input order: row `i` of the
output carries the `Drug` cell of input row `i` and its normalized
identifier. -/
theorem C4_one_row_per_product (t : Top100Table) (n : NadacTable)
    (r : ReimbTable) (h : validate t n r = none) :
    ∃ out rest, runEngine t n r = Except.ok (out, rest) ∧
      out.length = t.rows.length ∧
      ∀ i : Fin out.length, ∃ hi : (i : Nat) < t.rows.length,
        (out.get i).drugName = (t.rows.get ⟨i, hi⟩).drug ∧
        (out.get i).ndc = normNDC (t.rows.get ⟨i, hi⟩).ndc := by
  refine ⟨_, _, runEngine_of_validate_none h, ?_, ?_⟩
  · simp [normalizeTop100]
  · intro i
    have hi : (i : Nat) < t.rows.length := by
      have := i.isLt
      simpa [normalizeTop100] using this
    refine ⟨hi, ?_, ?_⟩
    · simp [List.get_eq_getElem, List.getElem_map, normalizeTop100,
        processRow_drugName]
    · simp [List.get_eq_getElem, List.getElem_map, normalizeTop100,
        processRow_ndc]

/-- Witness for C4 at the example datasets. -/
theorem C4_one_row_per_product_witness :
    validate exTop exNadac exReimb = none ∧
    ∃ out rest, runEngine exTop exNadac exReimb = Except.ok (out, rest) ∧
      out.length = exTop.rows.length ∧
      ∀ i : Fin out.length, ∃ hi : (i : Nat) < exTop.rows.length,
        (out.get i).drugName = (exTop.rows.get ⟨i, hi⟩).drug ∧
        (out.get i).ndc = normNDC (exTop.rows.get ⟨i, hi⟩).ndc :=
  ⟨rfl, C4_one_row_per_product exTop exNadac exReimb rfl⟩

/-- Claim C9: the engine is a deterministic function of its inputs — two
runs on equal inputs (including inputs holding equal-amount ties) return
equal results. -/
theorem C9_deterministic (t t2 : Top100Table) (n n2 : NadacTable)
    (r r2 : ReimbTable) (h1 : t = t2) (h2 : n = n2) (h3 : r = r2) :
    runEngine t n r = runEngine t2 n2 r2 := by
  subst h1
  subst h2
  subst h3
  rfl

/-- Witness for C9: replaying the engine on the tie-carrying inputs yields
the same result. -/
theorem C9_deterministic_witness :
    runEngine tieTop tieNadac tieReimb = runEngine tieTop tieNadac tieReimb :=
  C9_deterministic tieTop tieTop tieNadac tieNadac tieReimb tieReimb
    rfl rfl rfl

/-- Counterexample to claim C1 as stated: on `c1Reimb` the selected record's
`Primary Third Party Bin` cell is null in a present column, and the output
`Bin` is null — not replaced by "Not Available" — while `PCN` and `Network`
on that same record keep their real values. -/
theorem C1_null_not_defaulted_counterexample :
    (runEngine c1Top c1Nadac c1Reimb).toOption.map
        (fun x => x.1.map (fun o => (o.bin, o.pcn, o.network))) =
      some [(Value.null, Value.str "PCN1", Value.str "NETA")] ∧
    Value.null ≠ Value.str "Not Available" := by
  decide

/-- Claim C1 (amended): for a matched product row, each of `Bin`, `PCN`,
`Network` independently falls back to "Not Available" exactly when its
column is absent from the reimbursement dataframe; when the column is
present, a real value on the selected record is kept and a null cell is
passed through as null rather than replaced. -/
theorem C1_field_defaults (n : NadacTable) (r : ReimbTable)
    (valid : List ReimbRow) (p : ProdRow) (b : ReimbRow)
    (hm : selectBest (matchesFor valid p.ndc) = some b) :
    ((r.hasBin = false →
        (processRow n r valid p).bin = Value.str "Not Available") ∧
      (r.hasBin = true → b.bin = none →
        (processRow n r valid p).bin = Value.null) ∧
      (∀ s, r.hasBin = true → b.bin = some s →
        (processRow n r valid p).bin = Value.str s)) ∧
    ((r.hasPcn = false →
        (processRow n r valid p).pcn = Value.str "Not Available") ∧
      (r.hasPcn = true → b.pcn = none →
        (processRow n r valid p).pcn = Value.null) ∧
      (∀ s, r.hasPcn = true → b.pcn = some s →
        (processRow n r valid p).pcn = Value.str s)) ∧
    ((r.hasNetwork = false →
        (processRow n r valid p).network = Value.str "Not Available") ∧
      (r.hasNetwork = true → b.network = none →
        (processRow n r valid p).network = Value.null) ∧
      (∀ s, r.hasNetwork = true → b.network = some s →
        (processRow n r valid p).network = Value.str s)) := by
  refine ⟨⟨?_, ?_, ?_⟩, ⟨?_, ?_, ?_⟩, ⟨?_, ?_, ?_⟩⟩
  · intro h1
    simp [processRow, hm, getOptField, h1]
  · intro h1 h2
    simp [processRow, hm, getOptField, h1, h2]
  · intro s h1 h2
    simp [processRow, hm, getOptField, h1, h2]
  · intro h1
    simp [processRow, hm, getOptField, h1]
  · intro h1 h2
    simp [processRow, hm, getOptField, h1, h2]
  · intro s h1 h2
    simp [processRow, hm, getOptField, h1, h2]
  · intro h1
    simp [processRow, hm, getOptField, h1]
  · intro h1 h2
    simp [processRow, hm, getOptField, h1, h2]
  · intro s h1 h2
    simp [processRow, hm, getOptField, h1, h2]

/-- Witness for the amended C1 at `c1Row`: null `Bin` stays null while the
real `PCN` and `Network` values on the same record are kept. -/
theorem C1_field_defaults_witness :
    selectBest (matchesFor [c1Row] "00000000001") = some c1Row ∧
    (processRow c1Nadac c1Reimb [c1Row]
      ⟨"00000000001", some "DrugA"⟩).bin = Value.null ∧
    (processRow c1Nadac c1Reimb [c1Row]
      ⟨"00000000001", some "DrugA"⟩).pcn = Value.str "PCN1" ∧
    (processRow c1Nadac c1Reimb [c1Row]
      ⟨"00000000001", some "DrugA"⟩).network = Value.str "NETA" := by
  refine ⟨by decide, ?_, ?_, ?_⟩
  · exact (C1_field_defaults c1Nadac c1Reimb [c1Row]
      ⟨"00000000001", some "DrugA"⟩ c1Row (by decide)).1.2.1 rfl rfl
  · exact (C1_field_defaults c1Nadac c1Reimb [c1Row]
      ⟨"00000000001", some "DrugA"⟩ c1Row (by decide)).2.1.2.2 "PCN1" rfl rfl
  · exact (C1_field_defaults c1Nadac c1Reimb [c1Row]
      ⟨"00000000001", some "DrugA"⟩ c1Row (by decide)).2.2.2.2 "NETA" rfl rfl

/-- Counterexample to claim C2 as stated: on the spec's example scenario the
engine's output is not the claimed row list — the claimed `Bin` value
"Not Available" is wrong. -/
theorem C2_example_counterexample :
    (runEngine exTop exNadac exReimb).toOption.map Prod.fst ≠
      some [{ exOutRow with bin := Value.str "Not Available" }] := by
  decide

/-- Claim C2 (amended): on the spec's example scenario the engine returns
exactly one output row, equal to the claimed row except that `Bin` is null
(the winning record's `Bin` cell is NaN in a present column, and
`Series.get` surfaces the NaN instead of the default). -/
theorem C2_example_output :
    (runEngine exTop exNadac exReimb).toOption.map Prod.fst =
      some [exOutRow] := by
  decide

/-- Counterexample to claim C8 as stated: running the engine on the example
datasets hands back a product table whose `NDC` column has been rewritten
("123" became "00000000123"), so the input table was mutated. -/
theorem C8_inputs_mutated_counterexample :
    (runEngine exTop exNadac exReimb).toOption.map (fun x => x.2.1) ≠
        some exTop ∧
    (runEngine exTop exNadac exReimb).toOption.map (fun x => x.2.1) =
      some ⟨true, true, [⟨"00000000123", some "Aspirin"⟩]⟩ := by
  decide

/-- Claim C8 (amended): a successful run leaves the three input dataframes
in their normalized states — the identifier column of each is overwritten
with its normalized values, while every other column (and the column set)
is unchanged, row for row. -/
theorem C8_normalization_rewrites_id_columns (t : Top100Table)
    (n : NadacTable) (r : ReimbTable) (h : validate t n r = none) :
    (∃ out, runEngine t n r =
      Except.ok (out, normalizeTop100 t, normalizeNadac n, normalizeReimb r)) ∧
    ((normalizeTop100 t).hasNDC = t.hasNDC ∧
      (normalizeTop100 t).hasDrug = t.hasDrug ∧
      (normalizeTop100 t).rows.length = t.rows.length ∧
      ∀ i : Fin t.rows.length,
        ∃ h2 : (i : Nat) < (normalizeTop100 t).rows.length,
          ((normalizeTop100 t).rows.get ⟨i, h2⟩).drug = (t.rows.get i).drug ∧
          ((normalizeTop100 t).rows.get ⟨i, h2⟩).ndc =
            normNDC (t.rows.get i).ndc) ∧
    ((normalizeNadac n).rows.length = n.rows.length ∧
      ∀ i : Fin n.rows.length,
        ∃ h2 : (i : Nat) < (normalizeNadac n).rows.length,
          ((normalizeNadac n).rows.get ⟨i, h2⟩).nadacPerUnit =
            (n.rows.get i).nadacPerUnit ∧
          ((normalizeNadac n).rows.get ⟨i, h2⟩).ndc =
            normNDC (n.rows.get i).ndc) ∧
    ((normalizeReimb r).rows.length = r.rows.length ∧
      ∀ i : Fin r.rows.length,
        ∃ h2 : (i : Nat) < (normalizeReimb r).rows.length,
          ((normalizeReimb r).rows.get ⟨i, h2⟩).amount =
            (r.rows.get i).amount ∧
          ((normalizeReimb r).rows.get ⟨i, h2⟩).bin = (r.rows.get i).bin ∧
          ((normalizeReimb r).rows.get ⟨i, h2⟩).pcn = (r.rows.get i).pcn ∧
          ((normalizeReimb r).rows.get ⟨i, h2⟩).network =
            (r.rows.get i).network ∧
          ((normalizeReimb r).rows.get ⟨i, h2⟩).ndc =
            normReimbNDC (r.rows.get i).ndc) := by
  refine ⟨⟨_, runEngine_of_validate_none h⟩,
    ⟨rfl, rfl, by simp [normalizeTop100], ?_⟩,
    ⟨by simp [normalizeNadac], ?_⟩,
    ⟨by simp [normalizeReimb], ?_⟩⟩
  · intro i
    refine ⟨by simp [normalizeTop100], ?_, ?_⟩
    · simp [normalizeTop100, List.get_eq_getElem, List.getElem_map]
    · simp [normalizeTop100, List.get_eq_getElem, List.getElem_map]
  · intro i
    refine ⟨by simp [normalizeNadac], ?_, ?_⟩
    · simp [normalizeNadac, List.get_eq_getElem, List.getElem_map]
    · simp [normalizeNadac, List.get_eq_getElem, List.getElem_map]
  · intro i
    refine ⟨by simp [normalizeReimb], ?_, ?_, ?_, ?_, ?_⟩
    all_goals simp [normalizeReimb, List.get_eq_getElem, List.getElem_map]

/-- Witness for the amended C8 at the example datasets. -/
theorem C8_normalization_rewrites_id_columns_witness :
    validate exTop exNadac exReimb = none ∧
    ∃ out, runEngine exTop exNadac exReimb =
      Except.ok (out, normalizeTop100 exTop, normalizeNadac exNadac,
        normalizeReimb exReimb) :=
  ⟨rfl, (C8_normalization_rewrites_id_columns exTop exNadac exReimb rfl).1⟩

/-- Claim C10: in every output row of a successful run, the `Reimbursement`
field is a number, never negative, and strictly positive exactly when some
filtered reimbursement record shares the row's normalized identifier (it is
the number 0 otherwise). -/
theorem C10_reimbursement_positive_iff_match (t : Top100Table)
    (n : NadacTable) (r : ReimbTable) (out : List OutputRow)
    (rest : Top100Table × NadacTable × ReimbTable) (row : OutputRow)
    (hv : validate t n r = none)
    (hrun : runEngine t n r = Except.ok (out, rest))
    (hrow : row ∈ out) :
    ∃ q : ℚ, row.reimbursement = Value.num q ∧ 0 ≤ q ∧
      (0 < q ↔ ∃ x ∈ filterValid (normalizeReimb r).rows, x.ndc = row.ndc) := by
  rw [runEngine_of_validate_none hv] at hrun
  injection hrun with hrun
  have hout : out = (normalizeTop100 t).rows.map
      (processRow (normalizeNadac n) (normalizeReimb r)
        (filterValid (normalizeReimb r).rows)) := by
    have hfst := congrArg Prod.fst hrun
    simpa using hfst.symm
  subst hout
  obtain ⟨p, hp, hFp⟩ := List.mem_map.mp hrow
  subst hFp
  cases hsel : selectBest
      (matchesFor (filterValid (normalizeReimb r).rows) p.ndc) with
  | none =>
    refine ⟨0, ?_, le_refl 0, ?_⟩
    · simp [processRow, hsel]
    · constructor
      · intro h0
        exact absurd h0 (lt_irrefl 0)
      · rintro ⟨x, hxmem, hxndc⟩
        exfalso
        rw [processRow_ndc] at hxndc
        have hxm : x ∈ matchesFor (filterValid (normalizeReimb r).rows) p.ndc :=
          List.mem_filter.mpr ⟨hxmem, by simp [hxndc]⟩
        rw [selectBest_eq_none.mp hsel] at hxm
        exact absurd hxm (List.not_mem_nil x)
  | some b =>
    have hbm := selectBest_mem hsel
    have hb1 : b ∈ filterValid (normalizeReimb r).rows :=
      (List.mem_filter.mp
        (show b ∈ (filterValid (normalizeReimb r).rows).filter
          (fun x => x.ndc == p.ndc) from hbm)).1
    have hbnd : (b.ndc == p.ndc) = true :=
      (List.mem_filter.mp
        (show b ∈ (filterValid (normalizeReimb r).rows).filter
          (fun x => x.ndc == p.ndc) from hbm)).2
    have hva := (List.mem_filter.mp
      (show b ∈ (normalizeReimb r).rows.filter validAmount from hb1)).2
    simp only [validAmount, decide_eq_true_eq] at hva
    cases hba : b.amount with
    | none =>
      rw [hba] at hva
      simp at hva
    | some q =>
      rw [hba] at hva
      simp only [Option.getD_some] at hva
      have hAmt : (normalizeReimb r).hasAmount = true := by
        have hflag := (validate_none_flags hv).2.2.2.2.2
        simpa [normalizeReimb] using hflag
      refine ⟨q, ?_, le_of_lt hva, ?_⟩
      · simp [processRow, hsel, getAmountField, hAmt, hba]
      · constructor
        · intro _
          exact ⟨b, hb1, by rw [processRow_ndc]; exact eq_of_beq hbnd⟩
        · intro _
          exact hva

/-- Witness for C10 at the example datasets and their single output row. -/
theorem C10_reimbursement_positive_iff_match_witness :
    (validate exTop exNadac exReimb = none ∧ exOutRow ∈ [exOutRow]) ∧
    ∃ q : ℚ, exOutRow.reimbursement = Value.num q ∧ 0 ≤ q ∧
      (0 < q ↔ ∃ x ∈ filterValid (normalizeReimb exReimb).rows,
        x.ndc = exOutRow.ndc) :=
  ⟨⟨rfl, by decide⟩,
    C10_reimbursement_positive_iff_match exTop exNadac exReimb [exOutRow]
      (normalizeTop100 exTop, normalizeNadac exNadac, normalizeReimb exReimb)
      exOutRow rfl (by rfl) (by decide)⟩
